import Mathlib

/-!
Shallow embedding of the ncloud Terraform provider sources under verification:
the member-server-images data source and the server resource lifecycle
(src/unnamed/part_000) and the attribute validators (src/ncloud/validators.go).

External effects (vendor API calls, the Terraform retry helper, the poll
clock) are modelled by explicit result lists: each list entry is the outcome
of one call, and exhausting a list models the corresponding wall-clock
timeout elapsing.
-/

namespace Ncloud

/-- Projection of the vendor SDK ServerInstance: the two fields the embedded
logic reads, ServerInstanceNo and ServerInstanceStatus.Code (both read through
the nil-safe ncloud.StringValue). -/
structure ServerInstance where
  serverInstanceNo : String
  statusCode : String
  deriving DecidableEq

/-- Projection of the vendor SDK CommonResponse: only the return code is
inspected by the retry logic. -/
structure CommonResponse where
  returnCode : String
  deriving DecidableEq

/-- Modelled from the spec: the transient error-code constant ApiErrorUnknown is
defined in repository files not under src/. Only its identity matters to the
claims, so it is modelled as a string literal equal to its identifier; the same
holds for the other ApiError constants below. -/
def ApiErrorUnknown : String := "ApiErrorUnknown"

/-- Modelled from the spec: see ApiErrorUnknown. -/
def ApiErrorAuthorityParameter : String := "ApiErrorAuthorityParameter"

/-- Modelled from the spec: see ApiErrorUnknown. -/
def ApiErrorServerObjectInOperation : String := "ApiErrorServerObjectInOperation"

/-- Modelled from the spec: see ApiErrorUnknown. -/
def ApiErrorServerObjectInOperation2 : String := "ApiErrorServerObjectInOperation2"

/-- Modelled from the spec: see ApiErrorUnknown. -/
def ApiErrorPreviousServersHaveNotBeenEntirelyTerminated : String :=
  "ApiErrorPreviousServersHaveNotBeenEntirelyTerminated"

/-- Modelled from the spec: see ApiErrorUnknown. -/
def ApiErrorObjectInOperation : String := "ApiErrorObjectInOperation"

/-- Modelled from the spec: `isRetryableErr` (defined in repository files not
under src/) reports whether the common response carries one of the given
transient error codes ("if the response carries one of a known set of object
in operation / transient error codes, retries"). -/
def isRetryableErr (resp : CommonResponse) (codes : List String) : Bool :=
  decide (resp.returnCode ∈ codes)

/-- One attempt of a vendor API call inside the Terraform retry helper: the
(possibly nil) typed response and the (possibly nil) error, exactly the pair
the Go SDK call returns. -/
structure Attempt (α : Type) where
  resp : Option α
  err : Option String
  deriving DecidableEq

/-- Model of the Terraform helper resource.RetryableError: a retryable
RetryError carrying the error, collapsing a nil error to a nil RetryError
(success) exactly as the helper does. `none` models a nil *RetryError,
`some (retryable, msg)` a non-nil one. -/
def RetryableError (e : Option String) : Option (Bool × String) :=
  match e with
  | some m => some (true, m)
  | none => none

/-- Model of the Terraform helper resource.NonRetryableError: a terminal
RetryError carrying the error, collapsing a nil error to a nil RetryError
(success) exactly as the helper does. -/
def NonRetryableError (e : Option String) : Option (Bool × String) :=
  match e with
  | some m => some (false, m)
  | none => none

/-- Outcome of the Terraform helper resource.Retry: success carries the last
response the retried closure stored, failure the terminal error, and timedOut
the last retryable error seen when the timeout elapsed. -/
inductive RetryOutcome (α : Type) where
  | success (resp : Option α)
  | failure (e : String)
  | timedOut (last : Option String)
  deriving DecidableEq

/-- Model of the Terraform helper resource.Retry: runs the decision body of
the retried closure on successive attempts. A nil RetryError stops with
success (keeping that attempt's response), a non-retryable one surfaces its
error immediately, and a retryable one moves on to the next attempt. The
attempt list models the calls that fit inside the wall-clock timeout, so
exhausting it models the timeout elapsing. -/
def retryRun {α : Type} (f : Attempt α → Option (Bool × String)) :
    List (Attempt α) → Option String → RetryOutcome α
  | [], last => .timedOut last
  | a :: rest, _ =>
    match f a with
    | none => .success a.resp
    | some (false, e) => .failure e
    | some (true, e) => retryRun f rest (some e)

/-- Projection of the vendor SDK CreateServerInstancesResponse: return code
plus the created server instance list. -/
structure CreateServerInstancesResponse where
  returnCode : String
  serverInstanceList : List ServerInstance
  deriving DecidableEq

/-- Projection of the vendor SDK TerminateServerInstancesResponse. -/
structure TerminateServerInstancesResponse where
  returnCode : String
  deriving DecidableEq

/-- Projection of the vendor SDK ChangeServerInstanceSpecResponse. -/
structure ChangeServerInstanceSpecResponse where
  returnCode : String
  deriving DecidableEq

/-- The transient error-code allow-list of the CreateServerInstances retry in
resourceNcloudServerCreate. -/
def createRetryCodes : List String :=
  [ApiErrorUnknown, ApiErrorAuthorityParameter, ApiErrorServerObjectInOperation,
   ApiErrorPreviousServersHaveNotBeenEntirelyTerminated]

/-- The literal duration passed to resource.Retry in resourceNcloudServerCreate
(10 * time.Minute). -/
def createRetryTimeoutMinutes : Nat := 10

/-- Body of the closure retried by resourceNcloudServerCreate: retryable when
the response is non-nil and its code is allow-listed, terminal otherwise. -/
def createAttemptDecision (a : Attempt CreateServerInstancesResponse) :
    Option (Bool × String) :=
  match a.resp with
  | some r =>
    if isRetryableErr ⟨r.returnCode⟩ createRetryCodes then RetryableError a.err
    else NonRetryableError a.err
  | none => NonRetryableError a.err

/-- The transient error-code allow-list of the ChangeServerInstanceSpec retry
in resourceNcloudServerUpdate (the source lists ApiErrorObjectInOperation
twice; the duplicate is kept). -/
def updateRetryCodes : List String :=
  [ApiErrorUnknown, ApiErrorObjectInOperation, ApiErrorObjectInOperation]

/-- Body of the closure retried by resourceNcloudServerUpdate. -/
def updateAttemptDecision (a : Attempt ChangeServerInstanceSpecResponse) :
    Option (Bool × String) :=
  match a.resp with
  | some r =>
    if isRetryableErr ⟨r.returnCode⟩ updateRetryCodes then RetryableError a.err
    else NonRetryableError a.err
  | none => NonRetryableError a.err

/-- The transient error-code allow-list of the TerminateServerInstances retry
in terminateServerInstance. -/
def terminateRetryCodes : List String :=
  [ApiErrorUnknown, ApiErrorServerObjectInOperation2]

/-- The literal duration passed to resource.Retry in terminateServerInstance
(1 * time.Minute). -/
def terminateRetryTimeoutMinutes : Nat := 1

/-- Body of the closure retried by terminateServerInstance, including its
leading early return when both the error and the response are nil. -/
def terminateAttemptDecision (a : Attempt TerminateServerInstancesResponse) :
    Option (Bool × String) :=
  if a.err = none ∧ a.resp = none then NonRetryableError a.err
  else
    match a.resp with
    | some r =>
      if isRetryableErr ⟨r.returnCode⟩ terminateRetryCodes then RetryableError a.err
      else NonRetryableError a.err
    | none => NonRetryableError a.err

/-- Outcome of waitForServerInstance. -/
inductive WaitOutcome where
  | ok
  | fetchErr (e : String)
  | timedOut (msg : String)
  deriving DecidableEq

/-- The fixed poll interval of waitForServerInstance (time.Sleep of
time.Second * 1). -/
def waitPollIntervalSeconds : Nat := 1

/-- The timeout error message built by waitForServerInstance; note it is built
from the instance id alone. -/
def waitTimeoutMessage (instanceId : String) : String :=
  "TIMEOUT : Wait to server instance  (" ++ instanceId ++ ")"

/-- Embedding of waitForServerInstance. Each list entry is one
getServerInstance result (error, nil instance, or instance); the list models
the polls that fit inside DefaultCreateTimeout, so exhausting it models the
time.After branch of the select firing. -/
def waitForServerInstance (instanceId : String) (status : String) :
    List (Except String (Option ServerInstance)) → WaitOutcome
  | [] => .timedOut (waitTimeoutMessage instanceId)
  | .error e :: _ => .fetchErr e
  | .ok none :: _ => .ok
  | .ok (some inst) :: rest =>
    if inst.statusCode = status then .ok
    else waitForServerInstance instanceId status rest

/-- The error a caller of waitForServerInstance observes: nil on success,
otherwise the fetch error or the timeout message. -/
def waitErr : WaitOutcome → Option String
  | .ok => none
  | .fetchErr e => some e
  | .timedOut m => some m

/-- The claim that the wait loop succeeds only when some fetched instance's
status code equals the target status. -/
def waitSuccessOnlyOnStatusMatch : Prop :=
  ∀ (instanceId status : String)
    (fetches : List (Except String (Option ServerInstance))),
    waitForServerInstance instanceId status fetches = WaitOutcome.ok →
    ∃ inst, Except.ok (some inst) ∈ fetches ∧ inst.statusCode = status

/-- Boolean substring test used to state what a message does or does not
mention. -/
def strContainsSub (hay needle : String) : Bool :=
  hay.data.tails.any (fun t => needle.data.isPrefixOf t)

/-- Projection of the vendor SDK MemberServerImage: the two fields the
embedded logic reads, MemberServerImageNo and MemberServerImageName (both
read through nil-safe dereference). -/
structure MemberServerImage where
  memberServerImageNo : String
  memberServerImageName : String
  deriving DecidableEq

/-- An attribute-setting effect performed on the Terraform ResourceData by
the member-server-images data source read. -/
inductive ReadEffect where
  | setId (v : String)
  | setImages (imgs : List MemberServerImage)
  | writeFile (path : String) (imgs : List MemberServerImage)
  deriving DecidableEq

/-- Modelled from the spec: dataResourceIdHash (defined in repository files
not under src/) derives a deterministic data-source id from the image
numbers; its exact form is irrelevant to every claim here. -/
def dataResourceIdHash (ids : List String) : String :=
  String.intercalate "-" ids

/-- Model of schema.ResourceData GetOk for a string attribute: the value is
returned with ok set only when the attribute is present and is not the zero
value "". -/
def getOkString (v : Option String) : Option String :=
  match v with
  | some s => if s = "" then none else some s
  | none => none

/-- Embedding of memberServerImagesAttributes: sets the data-source id and
the member_server_images attribute, then writes the output file when the
output_file attribute is set (GetOk) and non-empty (the source re-checks
non-emptiness after GetOk; both checks are kept). Setting attributes is
modelled as always succeeding, as it is owned by the host runtime. -/
def memberServerImagesAttributes (outputFile : Option String)
    (memberServerImages : List MemberServerImage) :
    List ReadEffect × Option String :=
  let ids := memberServerImages.map (fun m => m.memberServerImageNo)
  let effs := [ReadEffect.setId (dataResourceIdHash ids),
               ReadEffect.setImages memberServerImages]
  match getOkString outputFile with
  | some output =>
    if output ≠ "" then
      (effs ++ [ReadEffect.writeFile output memberServerImages], none)
    else (effs, none)
  | none => (effs, none)

/-- The name-regex filtering step of dataSourceNcloudMemberServerImagesRead.
`nameRegexMatch` is `some r` when GetOk returned the regex attribute, with
`r` the compiled regex's MatchString; `none` when the attribute is absent
(or the zero value ""). -/
def filterMemberServerImages (nameRegexMatch : Option (String → Bool))
    (allMemberServerImages : List MemberServerImage) : List MemberServerImage :=
  match nameRegexMatch with
  | some r => allMemberServerImages.filter (fun m => r m.memberServerImageName)
  | none => allMemberServerImages

/-- The terminal error returned when the filtered image list is empty. -/
def noResultsErr : String := "no results. please change search criteria and try again"

/-- Embedding of dataSourceNcloudMemberServerImagesRead. `regionParse` is the
parseRegionNoParameter result, `api` the GetMemberServerImageList call (it
receives the parsed region number; the other request parameters do not affect
any claim), and the result pairs the attribute effects performed with the
returned error (none on success). -/
def dataSourceNcloudMemberServerImagesRead
    (regionParse : Except String (Option String))
    (api : Option String → Except String (List MemberServerImage))
    (nameRegexMatch : Option (String → Bool))
    (outputFile : Option String) : List ReadEffect × Option String :=
  match regionParse with
  | .error e => ([], some e)
  | .ok regionNo =>
    match api regionNo with
    | .error e => ([], some e)
    | .ok allMemberServerImages =>
      let filtered := filterMemberServerImages nameRegexMatch allMemberServerImages
      if filtered.length < 1 then ([], some noResultsErr)
      else memberServerImagesAttributes outputFile filtered

/-- True for the effects that write the output file. -/
def writesOutputFile (effs : List ReadEffect) : Bool :=
  effs.any (fun e =>
    match e with
    | ReadEffect.writeFile _ _ => true
    | _ => false)

/-- The Terraform ResourceData state the server resource lifecycle reads and
writes: its resource id. -/
structure ResourceData where
  id : String
  deriving DecidableEq

/-- One external call issued by resourceNcloudServerDelete, recorded in
order. -/
inductive DeleteStep where
  | stopCall (id : String)
  | waitCall (instanceNo status : String)
  | detachCall (id : String)
  | terminateCall (id : String)
  | clearId
  deriving DecidableEq

/-- Result of resourceNcloudServerDelete. `panicked` models a Go nil-pointer
dereference; `fail e d` an error return with the resource data as left;
`done d` a nil return with the final resource data. -/
inductive DeleteResult where
  | panicked
  | fail (e : String) (d : ResourceData)
  | done (d : ResourceData)
  deriving DecidableEq

/-- Outcomes of the external calls resourceNcloudServerDelete makes:
getServerInstance, stopServerInstance, the getServerInstance polls inside
waitForServerInstance, detachBlockStorageByServerInstanceNo, and
terminateServerInstance (its internal retry is covered separately). For the
Option String fields, none models a nil error. -/
structure DeleteEnv where
  fetch : Except String (Option ServerInstance)
  stop : Option String
  waitFetches : List (Except String (Option ServerInstance))
  detach : Option String
  terminate : Option String

/-- Tail of resourceNcloudServerDelete after the conditional stop-and-wait:
detach block storage, terminate the instance, then clear the resource id. -/
def deleteTail (env : DeleteEnv) (d : ResourceData) (steps : List DeleteStep) :
    DeleteResult × List DeleteStep :=
  match env.detach with
  | some e => (.fail e d, steps ++ [DeleteStep.detachCall d.id])
  | none =>
    match env.terminate with
    | some e => (.fail e d, steps ++ [DeleteStep.detachCall d.id, DeleteStep.terminateCall d.id])
    | none => (.done { id := "" },
        steps ++ [DeleteStep.detachCall d.id, DeleteStep.terminateCall d.id, DeleteStep.clearId])

/-- Embedding of resourceNcloudServerDelete. The source guard is
`serverInstance == nil || StringValue(serverInstance.ServerInstanceStatus.Code) != "NSTOP"`;
its short-circuit is written out by matching the fetched instance first. In
the nil-instance branch, after a successful stop the source evaluates
`serverInstance.ServerInstanceNo` on the nil pointer, a Go nil dereference,
modelled as `panicked`. -/
def resourceNcloudServerDelete (env : DeleteEnv) (d : ResourceData) :
    DeleteResult × List DeleteStep :=
  match env.fetch with
  | .error e => (.fail e d, [])
  | .ok none =>
    match env.stop with
    | some e => (.fail e d, [DeleteStep.stopCall d.id])
    | none => (.panicked, [DeleteStep.stopCall d.id])
  | .ok (some i) =>
    if i.statusCode ≠ "NSTOP" then
      match env.stop with
      | some e => (.fail e d, [DeleteStep.stopCall d.id])
      | none =>
        match waitErr (waitForServerInstance i.serverInstanceNo "NSTOP" env.waitFetches) with
        | some e => (.fail e d,
            [DeleteStep.stopCall d.id, DeleteStep.waitCall i.serverInstanceNo "NSTOP"])
        | none => deleteTail env d
            [DeleteStep.stopCall d.id, DeleteStep.waitCall i.serverInstanceNo "NSTOP"]
    else deleteTail env d []

/-- Outcomes of the external calls resourceNcloudServerCreate makes: the
CreateServerInstances attempts inside the retry and the getServerInstance
polls inside waitForServerInstance. -/
structure CreateEnv where
  attempts : List (Attempt CreateServerInstancesResponse)
  waitFetches : List (Except String (Option ServerInstance))

/-- Result of resourceNcloudServerCreate after buildCreateServerInstanceReqParams.
`panicked` models the Go runtime fault of `resp.ServerInstanceList[0]` on a
nil response or an empty list; `retryFail` an error return from the retry
(carrying the terminal or last error); `waitFail e d` an error return from
the wait with the resource data already updated; `done d` success (the final
resourceNcloudServerRead is outside this claim's scope). -/
inductive CreateResult where
  | panicked
  | retryFail (e : Option String)
  | waitFail (e : String) (d : ResourceData)
  | done (d : ResourceData)
  deriving DecidableEq

/-- Embedding of resourceNcloudServerCreate after the request is built: retry
CreateServerInstances, read the first element of the response's
ServerInstanceList (no emptiness check in the source), set the resource id to
its ServerInstanceNo, then wait for status "RUN". -/
def resourceNcloudServerCreate (env : CreateEnv) : CreateResult :=
  match retryRun createAttemptDecision env.attempts none with
  | .failure e => .retryFail (some e)
  | .timedOut last => .retryFail last
  | .success respOpt =>
    match respOpt with
    | none => .panicked
    | some resp =>
      match resp.serverInstanceList with
      | [] => .panicked
      | inst :: _ =>
        match waitErr (waitForServerInstance inst.serverInstanceNo "RUN" env.waitFetches) with
        | some e => .waitFail e { id := inst.serverInstanceNo }
        | none => .done { id := inst.serverInstanceNo }

/-- The character class of the server-name pattern
`[(A-Z|a-z|0-9|\\-|\\*)]+` as Go's regexp parses it: the literals `(`, `|`,
`\`, `*`, `)`, the ranges A-Z, a-z and 0-9, and the range from `\` (0x5C) to
`|` (0x7C) formed by the class items `\\`, `-`, `|`. No `-` in the pattern is
a literal hyphen: each one acts as a range operator. -/
def serverNameClassChar (c : Char) : Bool :=
  decide (c = '(') || decide ('A' ≤ c ∧ c ≤ 'Z') || decide (c = '|')
    || decide ('a' ≤ c ∧ c ≤ 'z') || decide ('0' ≤ c ∧ c ≤ '9')
    || decide ('\\' ≤ c ∧ c ≤ '|')
    || decide (c = '\\') || decide (c = '*') || decide (c = ')')

/-- serverNamePattern.MatchString: the pattern `[class]+` is unanchored, so it
matches exactly when some character of the string is in the class. -/
def serverNamePatternMatchString (s : String) : Bool :=
  s.data.any serverNameClassChar

/-- The length error message of validateServerName (fmt %q quotes the key). -/
def serverNameLengthErrMsg (k : String) : String :=
  "must be a valid \"" ++ k ++ "\" characters between 1 and 30"

/-- The composition error message of validateServerName. -/
def serverNameCharErrMsg : String :=
  "server name is composed of alphabets, numbers, hyphen (-) and wild card (*).<br> Hyphen (-) cannot be used for the last character and if wild card (*) is used, other characters cannot be input.<br> Maximum length is 63Bytes, and the minimum is 1Byte"

/-- Go `strings.LastIndex(value, "-") == len(value)-1`: true exactly when the
last character is a hyphen, and also for the empty string (both sides are -1
there). -/
def lastCharIsHyphenGo (s : String) : Bool :=
  match s.data.reverse with
  | [] => true
  | c :: _ => c == '-'

/-- Embedding of validateStringLengthInRange: builds a validator returning a
length-range error when the value's length is outside [mn, mx]. -/
def validateStringLengthInRange (mn mx : Nat) : String → String → List String :=
  fun value k =>
    if value.length < mn ∨ mx < value.length then
      ["must be a valid \"" ++ k ++ "\" characters between "
        ++ toString mn ++ " and " ++ toString mx]
    else []

/-- Embedding of validateServerName, returning the errors list. The source
calls validateStringLengthInRange(3, 30) and discards the resulting validator
without applying it, mirrored by the unused binding. -/
def validateServerName (value k : String) : List String :=
  let _discarded := validateStringLengthInRange 3 30
  let errsLen : List String :=
    if value.length < 3 ∨ 30 < value.length then [serverNameLengthErrMsg k] else []
  if (!serverNamePatternMatchString value) || lastCharIsHyphenGo value then
    errsLen ++ [serverNameCharErrMsg]
  else errsLen

/-- The claim that any 3..30-character value not ending in a hyphen that
contains at least one alphanumeric, hyphen or asterisk character passes
validateServerName. -/
def serverNameAcceptsHyphenOnlyNames : Prop :=
  ∀ (value k : String),
    3 ≤ value.length → value.length ≤ 30 →
    lastCharIsHyphenGo value = false →
    (∃ c ∈ value.data,
      ('A' ≤ c ∧ c ≤ 'Z') ∨ ('a' ≤ c ∧ c ≤ 'z') ∨ ('0' ≤ c ∧ c ≤ '9')
        ∨ c = '-' ∨ c = '*') →
    validateServerName value k = []

/-- C1: for the server create, update and terminate operations, an attempt
whose response carries an allow-listed error code (create:
ApiErrorUnknown, ApiErrorAuthorityParameter, ApiErrorServerObjectInOperation,
ApiErrorPreviousServersHaveNotBeenEntirelyTerminated; terminate:
ApiErrorUnknown, ApiErrorServerObjectInOperation2) is retried, while an error
whose code is not allow-listed is surfaced immediately, aborting the retry
regardless of remaining attempts; the retry windows are the fixed timeouts 10
minutes (create) and 1 minute (terminate), and an exhausted window times out. -/
theorem retry_allowlist_behavior :
    (createRetryTimeoutMinutes = 10 ∧ terminateRetryTimeoutMinutes = 1)
    ∧ (∀ (r : CreateServerInstancesResponse) (e : String)
        (rest : List (Attempt CreateServerInstancesResponse)) (last : Option String),
        r.returnCode ∈ createRetryCodes →
        retryRun createAttemptDecision ({ resp := some r, err := some e } :: rest) last
          = retryRun createAttemptDecision rest (some e))
    ∧ (∀ (r : CreateServerInstancesResponse) (e : String)
        (rest : List (Attempt CreateServerInstancesResponse)) (last : Option String),
        r.returnCode ∉ createRetryCodes →
        retryRun createAttemptDecision ({ resp := some r, err := some e } :: rest) last
          = RetryOutcome.failure e)
    ∧ (∀ (r : ChangeServerInstanceSpecResponse) (e : String)
        (rest : List (Attempt ChangeServerInstanceSpecResponse)) (last : Option String),
        r.returnCode ∈ updateRetryCodes →
        retryRun updateAttemptDecision ({ resp := some r, err := some e } :: rest) last
          = retryRun updateAttemptDecision rest (some e))
    ∧ (∀ (r : ChangeServerInstanceSpecResponse) (e : String)
        (rest : List (Attempt ChangeServerInstanceSpecResponse)) (last : Option String),
        r.returnCode ∉ updateRetryCodes →
        retryRun updateAttemptDecision ({ resp := some r, err := some e } :: rest) last
          = RetryOutcome.failure e)
    ∧ (∀ (r : TerminateServerInstancesResponse) (e : String)
        (rest : List (Attempt TerminateServerInstancesResponse)) (last : Option String),
        r.returnCode ∈ terminateRetryCodes →
        retryRun terminateAttemptDecision ({ resp := some r, err := some e } :: rest) last
          = retryRun terminateAttemptDecision rest (some e))
    ∧ (∀ (r : TerminateServerInstancesResponse) (e : String)
        (rest : List (Attempt TerminateServerInstancesResponse)) (last : Option String),
        r.returnCode ∉ terminateRetryCodes →
        retryRun terminateAttemptDecision ({ resp := some r, err := some e } :: rest) last
          = RetryOutcome.failure e)
    ∧ (∀ (α : Type) (f : Attempt α → Option (Bool × String)) (last : Option String),
        retryRun f [] last = RetryOutcome.timedOut last) := by
  refine ⟨⟨rfl, rfl⟩, ?_, ?_, ?_, ?_, ?_, ?_, fun α f last => rfl⟩
  · intro r e rest last h
    simp [retryRun, createAttemptDecision, isRetryableErr, RetryableError, h]
  · intro r e rest last h
    simp [retryRun, createAttemptDecision, isRetryableErr, NonRetryableError, h]
  · intro r e rest last h
    simp [retryRun, updateAttemptDecision, isRetryableErr, RetryableError, h]
  · intro r e rest last h
    simp [retryRun, updateAttemptDecision, isRetryableErr, NonRetryableError, h]
  · intro r e rest last h
    simp [retryRun, terminateAttemptDecision, isRetryableErr, RetryableError, h]
  · intro r e rest last h
    simp [retryRun, terminateAttemptDecision, isRetryableErr, NonRetryableError, h]

/-- Witness for retry_allowlist_behavior: a create attempt with the
allow-listed ApiErrorUnknown code is retried, and a terminate attempt with a
non-allow-listed code fails immediately with its error. -/
theorem retry_allowlist_behavior_witness :
    retryRun createAttemptDecision
        [{ resp := some { returnCode := ApiErrorUnknown, serverInstanceList := [] },
           err := some "transient" }] none
      = retryRun createAttemptDecision [] (some "transient")
    ∧ retryRun terminateAttemptDecision
        [{ resp := some { returnCode := "ERR-X" }, err := some "boom" }] none
      = RetryOutcome.failure "boom" :=
  ⟨retry_allowlist_behavior.2.1 { returnCode := ApiErrorUnknown, serverInstanceList := [] }
      "transient" [] none (by decide),
   retry_allowlist_behavior.2.2.2.2.2.2.1 { returnCode := "ERR-X" } "boom" [] none (by decide)⟩

/-- C2 counterexample: the wait loop does not return success only on a status
match. On the trace whose single fetch returns a nil instance, the loop
returns success although no fetched instance's status code equals the target
status "RUN". -/
theorem wait_success_requires_match_false : ¬ waitSuccessOnlyOnStatusMatch := by
  intro h
  obtain ⟨inst, hmem, -⟩ := h "i-1" "RUN" [Except.ok none] rfl
  simp at hmem

/-- C2 amended: the wait loop re-fetches the instance by id on a fixed
one-second interval; a fetch error terminates the wait with that error; it
returns success when the fetched instance's status code equals the target
status or when the fetch returns no instance at all (nil); a non-matching
instance continues the loop; an exhausted window returns the timeout error;
and success implies some fetch returned either a matching instance or no
instance. -/
theorem wait_poll_loop_behavior :
    waitPollIntervalSeconds = 1
    ∧ (∀ (id status e : String) (rest : List (Except String (Option ServerInstance))),
        waitForServerInstance id status (Except.error e :: rest) = WaitOutcome.fetchErr e)
    ∧ (∀ (id status : String) (rest : List (Except String (Option ServerInstance))),
        waitForServerInstance id status (Except.ok none :: rest) = WaitOutcome.ok)
    ∧ (∀ (id status : String) (inst : ServerInstance)
        (rest : List (Except String (Option ServerInstance))),
        inst.statusCode = status →
        waitForServerInstance id status (Except.ok (some inst) :: rest) = WaitOutcome.ok)
    ∧ (∀ (id status : String) (inst : ServerInstance)
        (rest : List (Except String (Option ServerInstance))),
        inst.statusCode ≠ status →
        waitForServerInstance id status (Except.ok (some inst) :: rest)
          = waitForServerInstance id status rest)
    ∧ (∀ (id status : String),
        waitForServerInstance id status [] = WaitOutcome.timedOut (waitTimeoutMessage id))
    ∧ (∀ (id status : String) (fetches : List (Except String (Option ServerInstance))),
        waitForServerInstance id status fetches = WaitOutcome.ok →
        (∃ inst, Except.ok (some inst) ∈ fetches ∧ inst.statusCode = status)
          ∨ Except.ok (none : Option ServerInstance) ∈ fetches) := by
  refine ⟨rfl, fun id status e rest => rfl, fun id status rest => rfl, ?_, ?_,
    fun id status => rfl, ?_⟩
  · intro id status inst rest h
    simp [waitForServerInstance, h]
  · intro id status inst rest h
    simp [waitForServerInstance, h]
  · intro id status fetches h
    induction fetches with
    | nil => simp [waitForServerInstance] at h
    | cons f rest ih =>
      cases f with
      | error e => simp [waitForServerInstance] at h
      | ok oi =>
        cases oi with
        | none => exact Or.inr (List.mem_cons_self _ _)
        | some inst =>
          by_cases hs : inst.statusCode = status
          · exact Or.inl ⟨inst, List.mem_cons_self _ _, hs⟩
          · simp only [waitForServerInstance, if_neg hs] at h
            rcases ih h with ⟨i, hi, hsi⟩ | hnone
            · exact Or.inl ⟨i, List.mem_cons_of_mem _ hi, hsi⟩
            · exact Or.inr (List.mem_cons_of_mem _ hnone)

/-- Witness for wait_poll_loop_behavior: a fetch returning an instance whose
status equals the target "RUN" makes the wait succeed. -/
theorem wait_poll_loop_behavior_witness :
    waitForServerInstance "i-9" "RUN"
      [Except.ok (some { serverInstanceNo := "i-9", statusCode := "RUN" })] = WaitOutcome.ok :=
  wait_poll_loop_behavior.2.2.2.1 "i-9" "RUN"
    { serverInstanceNo := "i-9", statusCode := "RUN" } [] rfl

/-- C3 counterexample: the timeout error of a wait for instance "777" to
reach status "RUN" identifies the resource id but not the target status: the
message contains "777" and does not contain "RUN". -/
theorem wait_timeout_message_lacks_status :
    waitForServerInstance "777" "RUN" [] = WaitOutcome.timedOut (waitTimeoutMessage "777")
    ∧ strContainsSub (waitTimeoutMessage "777") "777" = true
    ∧ strContainsSub (waitTimeoutMessage "777") "RUN" = false :=
  ⟨rfl, by decide, by decide⟩

/-- C3 amended: the timeout error message identifies the resource id being
waited on, but not the target status: it is the fixed text around the id,
independent of the status argument. -/
theorem wait_timeout_message_identifies_id (id status : String) :
    waitForServerInstance id status [] =
      WaitOutcome.timedOut ("TIMEOUT : Wait to server instance  (" ++ id ++ ")") := rfl

/-- C4: when the images remaining after the optional name-regex filter are
empty, the data-source read fails with the terminal error "no results. please
change search criteria and try again" and performs no attribute-setting
effect on the resource data. -/
theorem member_server_images_empty_filter_terminal
    (regionNo : Option String)
    (api : Option String → Except String (List MemberServerImage))
    (nameRegexMatch : Option (String → Bool)) (outputFile : Option String)
    (allImages : List MemberServerImage)
    (hapi : api regionNo = Except.ok allImages)
    (hempty : filterMemberServerImages nameRegexMatch allImages = []) :
    dataSourceNcloudMemberServerImagesRead (Except.ok regionNo) api nameRegexMatch outputFile
      = ([], some noResultsErr) := by
  simp [dataSourceNcloudMemberServerImagesRead, hapi, hempty]

/-- Witness for member_server_images_empty_filter_terminal: an api returning
no images at all makes the read fail with the no-results error and no
effects. -/
theorem member_server_images_empty_filter_terminal_witness :
    dataSourceNcloudMemberServerImagesRead (Except.ok none)
      (fun _ => Except.ok ([] : List MemberServerImage)) none none
      = ([], some noResultsErr) :=
  member_server_images_empty_filter_terminal none
    (fun _ => Except.ok ([] : List MemberServerImage)) none none [] rfl rfl

/-- C5: with the name regex set, the filtered list is exactly the
order-preserving subsequence of the vendor's returned list whose image names
match the regex; with it unset, the filtered list is the full returned
list. -/
theorem member_server_images_filter_exact (r : String → Bool)
    (allImages : List MemberServerImage) :
    filterMemberServerImages (some r) allImages
        = allImages.filter (fun m => r m.memberServerImageName)
    ∧ List.Sublist (filterMemberServerImages (some r) allImages) allImages
    ∧ (∀ m, m ∈ filterMemberServerImages (some r) allImages
        ↔ m ∈ allImages ∧ r m.memberServerImageName = true)
    ∧ filterMemberServerImages none allImages = allImages := by
  refine ⟨rfl, List.filter_sublist _, ?_, rfl⟩
  intro m
  simp [filterMemberServerImages, List.mem_filter]

/-- C7: a successful read's attributes are written to the output file exactly
when output_file is set to a non-empty string, and any file written is at the
path output_file holds, with the member server images that were set. -/
theorem output_file_written_iff_nonempty (outputFile : Option String)
    (imgs : List MemberServerImage) :
    (writesOutputFile (memberServerImagesAttributes outputFile imgs).1 = true
      ↔ ∃ s, outputFile = some s ∧ s ≠ "")
    ∧ (∀ (path : String) (c : List MemberServerImage),
        ReadEffect.writeFile path c ∈ (memberServerImagesAttributes outputFile imgs).1 →
        outputFile = some path ∧ c = imgs) := by
  cases outputFile with
  | none =>
    constructor
    · simp [memberServerImagesAttributes, getOkString, writesOutputFile]
    · intro path c hmem
      simp [memberServerImagesAttributes, getOkString] at hmem
  | some s =>
    by_cases hs : s = ""
    · subst hs
      constructor
      · simp [memberServerImagesAttributes, getOkString, writesOutputFile]
      · intro path c hmem
        simp [memberServerImagesAttributes, getOkString] at hmem
    · constructor
      · simp [memberServerImagesAttributes, getOkString, writesOutputFile, hs]
      · intro path c hmem
        simp [memberServerImagesAttributes, getOkString, hs] at hmem
        obtain ⟨hp, hc⟩ := hmem
        exact ⟨by rw [hp], hc⟩

/-- Witness for output_file_written_iff_nonempty: the only file-writing
effect of a read with output_file "img.json" is at that path with the images
that were set. -/
theorem output_file_written_iff_nonempty_witness :
    some "img.json" = some "img.json" ∧ ([] : List MemberServerImage) = [] :=
  (output_file_written_iff_nonempty (some "img.json") []).2 "img.json" [] (by decide)

/-- Case enumeration of deleteTail: a detach error, a terminate error, or
full success with the cleared id. -/
theorem deleteTail_cases (env : DeleteEnv) (d : ResourceData) (steps : List DeleteStep) :
    (∃ e, env.detach = some e ∧
      deleteTail env d steps = (DeleteResult.fail e d, steps ++ [DeleteStep.detachCall d.id]))
    ∨ (∃ e, env.detach = none ∧ env.terminate = some e ∧
      deleteTail env d steps = (DeleteResult.fail e d,
        steps ++ [DeleteStep.detachCall d.id, DeleteStep.terminateCall d.id]))
    ∨ (env.detach = none ∧ env.terminate = none ∧
      deleteTail env d steps = (DeleteResult.done { id := "" },
        steps ++ [DeleteStep.detachCall d.id, DeleteStep.terminateCall d.id,
          DeleteStep.clearId])) := by
  unfold deleteTail
  cases hd : env.detach with
  | some e => exact Or.inl ⟨e, rfl, rfl⟩
  | none =>
    cases ht : env.terminate with
    | some e => exact Or.inr (Or.inl ⟨e, rfl, rfl, rfl⟩)
    | none => exact Or.inr (Or.inr ⟨rfl, rfl, rfl⟩)

/-- Case enumeration of resourceNcloudServerDelete when the fetched instance
exists: either some step fails, returning a fail result that keeps the
resource data and a trace without clearId, or everything succeeds and the id
is cleared. -/
theorem delete_eval_cases (env : DeleteEnv) (d : ResourceData) (inst : ServerInstance)
    (hfetch : env.fetch = Except.ok (some inst)) :
    (∃ e trace, resourceNcloudServerDelete env d = (DeleteResult.fail e d, trace)
      ∧ DeleteStep.clearId ∉ trace)
    ∨ (∃ trace, resourceNcloudServerDelete env d = (DeleteResult.done { id := "" }, trace)
      ∧ env.detach = none ∧ env.terminate = none) := by
  by_cases hns : inst.statusCode ≠ "NSTOP"
  · cases hstop : env.stop with
    | some e =>
      have hres : resourceNcloudServerDelete env d
          = (DeleteResult.fail e d, [DeleteStep.stopCall d.id]) := by
        simp [resourceNcloudServerDelete, hfetch, hns, hstop]
      exact Or.inl ⟨e, _, hres, by simp⟩
    | none =>
      cases hw : waitErr (waitForServerInstance inst.serverInstanceNo "NSTOP" env.waitFetches) with
      | some e =>
        have hres : resourceNcloudServerDelete env d
            = (DeleteResult.fail e d,
              [DeleteStep.stopCall d.id, DeleteStep.waitCall inst.serverInstanceNo "NSTOP"]) := by
          simp [resourceNcloudServerDelete, hfetch, hns, hstop, hw]
        exact Or.inl ⟨e, _, hres, by simp⟩
      | none =>
        have hres : resourceNcloudServerDelete env d
            = deleteTail env d
              [DeleteStep.stopCall d.id, DeleteStep.waitCall inst.serverInstanceNo "NSTOP"] := by
          simp [resourceNcloudServerDelete, hfetch, hns, hstop, hw]
        rcases deleteTail_cases env d
            [DeleteStep.stopCall d.id, DeleteStep.waitCall inst.serverInstanceNo "NSTOP"] with
          ⟨e, hd, heq⟩ | ⟨e, hd, ht, heq⟩ | ⟨hd, ht, heq⟩
        · exact Or.inl ⟨e, _, hres.trans heq, by simp⟩
        · exact Or.inl ⟨e, _, hres.trans heq, by simp⟩
        · exact Or.inr ⟨_, hres.trans heq, hd, ht⟩
  · have hns2 : inst.statusCode = "NSTOP" := not_ne_iff.mp hns
    have hres : resourceNcloudServerDelete env d = deleteTail env d [] := by
      simp [resourceNcloudServerDelete, hfetch, hns2]
    rcases deleteTail_cases env d [] with ⟨e, hd, heq⟩ | ⟨e, hd, ht, heq⟩ | ⟨hd, ht, heq⟩
    · exact Or.inl ⟨e, _, hres.trans heq, by simp⟩
    · exact Or.inl ⟨e, _, hres.trans heq, by simp⟩
    · exact Or.inr ⟨_, hres.trans heq, hd, ht⟩

/-- C6: deleting an existing server stops it and waits for "NSTOP" exactly
when its status is not already "NSTOP", then detaches block storage, then
terminates, clearing the resource id only after every step succeeded; any
failing step returns its error with the resource data unchanged and the id
never cleared. -/
theorem server_delete_sequence (env : DeleteEnv) (d : ResourceData) (inst : ServerInstance)
    (hfetch : env.fetch = Except.ok (some inst)) :
    (inst.statusCode ≠ "NSTOP" → env.stop = none →
      waitErr (waitForServerInstance inst.serverInstanceNo "NSTOP" env.waitFetches) = none →
      env.detach = none → env.terminate = none →
      resourceNcloudServerDelete env d =
        (DeleteResult.done { id := "" },
         [DeleteStep.stopCall d.id, DeleteStep.waitCall inst.serverInstanceNo "NSTOP",
          DeleteStep.detachCall d.id, DeleteStep.terminateCall d.id, DeleteStep.clearId]))
    ∧ (inst.statusCode = "NSTOP" → env.detach = none → env.terminate = none →
      resourceNcloudServerDelete env d =
        (DeleteResult.done { id := "" },
         [DeleteStep.detachCall d.id, DeleteStep.terminateCall d.id, DeleteStep.clearId]))
    ∧ (∀ (e : String) (d2 : ResourceData),
        (resourceNcloudServerDelete env d).1 = DeleteResult.fail e d2 →
        d2 = d ∧ DeleteStep.clearId ∉ (resourceNcloudServerDelete env d).2)
    ∧ (DeleteStep.clearId ∈ (resourceNcloudServerDelete env d).2 →
        (resourceNcloudServerDelete env d).1 = DeleteResult.done { id := "" }) := by
  refine ⟨?_, ?_, ?_, ?_⟩
  · intro hns hstop hwait hdetach hterm
    simp [resourceNcloudServerDelete, hfetch, hns, hstop, hwait, deleteTail, hdetach, hterm]
  · intro hns hdetach hterm
    simp [resourceNcloudServerDelete, hfetch, hns, deleteTail, hdetach, hterm]
  · intro e d2 hfail
    rcases delete_eval_cases env d inst hfetch with ⟨e2, trace, heq, hnc⟩ | ⟨trace, heq, -, -⟩
    · rw [heq] at hfail ⊢
      simp at hfail
      exact ⟨hfail.2.symm, hnc⟩
    · rw [heq] at hfail
      simp at hfail
  · intro hmem
    rcases delete_eval_cases env d inst hfetch with ⟨e2, trace, heq, hnc⟩ | ⟨trace, heq, -, -⟩
    · rw [heq] at hmem
      exact absurd hmem hnc
    · rw [heq]

/-- Witness for server_delete_sequence: a running instance is stopped, waited
to "NSTOP", detached, terminated, and the id cleared. -/
theorem server_delete_sequence_witness :
    resourceNcloudServerDelete
      { fetch := Except.ok (some { serverInstanceNo := "100", statusCode := "RUN" }),
        stop := none,
        waitFetches := [Except.ok (some { serverInstanceNo := "100", statusCode := "NSTOP" })],
        detach := none, terminate := none }
      { id := "100" }
      = (DeleteResult.done { id := "" },
         [DeleteStep.stopCall "100", DeleteStep.waitCall "100" "NSTOP",
          DeleteStep.detachCall "100", DeleteStep.terminateCall "100", DeleteStep.clearId]) := by
  have h := server_delete_sequence
    { fetch := Except.ok (some { serverInstanceNo := "100", statusCode := "RUN" }),
      stop := none,
      waitFetches := [Except.ok (some { serverInstanceNo := "100", statusCode := "NSTOP" })],
      detach := none, terminate := none }
    { id := "100" } { serverInstanceNo := "100", statusCode := "RUN" } rfl
  exact h.1 (by decide) rfl rfl rfl rfl

/-- C8: when the create retry succeeds with a response, the code reads the
first element of ServerInstanceList without an emptiness check: an empty list
makes create fault at resp.ServerInstanceList[0], and under the precondition
that the list is non-empty the resource id is set to the first instance's
ServerInstanceNo before (and regardless of the outcome of) the wait for
status "RUN". -/
theorem server_create_first_instance (env : CreateEnv)
    (resp : CreateServerInstancesResponse)
    (hsucc : retryRun createAttemptDecision env.attempts none
      = RetryOutcome.success (some resp)) :
    (resp.serverInstanceList = [] → resourceNcloudServerCreate env = CreateResult.panicked)
    ∧ (∀ (inst : ServerInstance) (rest : List ServerInstance),
        resp.serverInstanceList = inst :: rest →
        resourceNcloudServerCreate env =
          match waitErr (waitForServerInstance inst.serverInstanceNo "RUN" env.waitFetches) with
          | some e => CreateResult.waitFail e { id := inst.serverInstanceNo }
          | none => CreateResult.done { id := inst.serverInstanceNo }) := by
  constructor
  · intro hempty
    simp [resourceNcloudServerCreate, hsucc, hempty]
  · intro inst rest hlist
    simp [resourceNcloudServerCreate, hsucc, hlist]

/-- Witness for server_create_first_instance: a successful create response
with one instance sets the id to its number and the wait for "RUN"
succeeds. -/
theorem server_create_first_instance_witness :
    resourceNcloudServerCreate
      ⟨[⟨some ⟨"900", [⟨"42", "INIT"⟩]⟩, none⟩],
       [Except.ok (some ⟨"42", "RUN"⟩)]⟩
      = CreateResult.done { id := "42" } := by
  have h := server_create_first_instance
    ⟨[⟨some ⟨"900", [⟨"42", "INIT"⟩]⟩, none⟩],
     [Except.ok (some ⟨"42", "RUN"⟩)]⟩
    ⟨"900", [⟨"42", "INIT"⟩]⟩ (by decide)
  exact h.2 ⟨"42", "INIT"⟩ [] rfl

/-- C9: when getServerInstance returns no instance without error, delete
still enters the stop-and-wait branch and, once the stop succeeds, evaluates
ServerInstanceNo on the nil instance (a Go nil dereference); conversely, when
the instance exists at the start of the operation, delete never reaches that
dereference. -/
theorem server_delete_nil_instance (env : DeleteEnv) (d : ResourceData) :
    (env.fetch = Except.ok none → env.stop = none →
      resourceNcloudServerDelete env d = (DeleteResult.panicked, [DeleteStep.stopCall d.id]))
    ∧ (∀ inst, env.fetch = Except.ok (some inst) →
      (resourceNcloudServerDelete env d).1 ≠ DeleteResult.panicked) := by
  constructor
  · intro hfetch hstop
    simp [resourceNcloudServerDelete, hfetch, hstop]
  · intro inst hfetch hpan
    rcases delete_eval_cases env d inst hfetch with ⟨e2, trace, heq, -⟩ | ⟨trace, heq, -, -⟩
    · rw [heq] at hpan
      simp at hpan
    · rw [heq] at hpan
      simp at hpan

/-- Witness for server_delete_nil_instance: a delete whose fetch finds no
instance and whose stop succeeds hits the nil dereference. -/
theorem server_delete_nil_instance_witness :
    resourceNcloudServerDelete
      { fetch := Except.ok none, stop := none, waitFetches := [],
        detach := none, terminate := none }
      { id := "42" }
      = (DeleteResult.panicked, [DeleteStep.stopCall "42"]) :=
  (server_delete_nil_instance
    { fetch := Except.ok none, stop := none, waitFetches := [],
      detach := none, terminate := none }
    { id := "42" }).1 rfl rfl

/-- C10 counterexample: "-.." has length 3, does not end in a hyphen and
contains a hyphen, yet validateServerName rejects it with the composition
error — no literal hyphen is in the compiled character class (every `-` in
the pattern acts as a range operator) — so the claimed acceptance of values
whose only allowed character is a hyphen is false. -/
theorem validate_server_name_hyphen_claim_false : ¬ serverNameAcceptsHyphenOnlyNames := by
  intro h
  exact absurd
    (h "-.." "server_name" (by decide) (by decide) (by decide) ⟨'-', by decide, by decide⟩)
    (by decide)

/-- C10 amended: every value of length between 3 and 30 that does not end in
a hyphen and contains at least one alphanumeric or asterisk character passes
validateServerName with no errors, even when it also contains characters
outside the documented allowed set (the character-class regex is unanchored,
and the validateStringLengthInRange(3, 30) call discards its result without
applying it). -/
theorem validate_server_name_accepts (value k : String)
    (hlo : 3 ≤ value.length) (hhi : value.length ≤ 30)
    (hend : lastCharIsHyphenGo value = false)
    (hc : ∃ c ∈ value.data,
      ('A' ≤ c ∧ c ≤ 'Z') ∨ ('a' ≤ c ∧ c ≤ 'z') ∨ ('0' ≤ c ∧ c ≤ '9') ∨ c = '*') :
    validateServerName value k = [] := by
  obtain ⟨c, hmem, hcase⟩ := hc
  have hclass : serverNameClassChar c = true := by
    rcases hcase with ⟨h1, h2⟩ | ⟨h1, h2⟩ | ⟨h1, h2⟩ | h1
    · simp [serverNameClassChar, h1, h2]
    · simp [serverNameClassChar, h1, h2]
    · simp [serverNameClassChar, h1, h2]
    · subst h1; decide
  have hmatch : serverNamePatternMatchString value = true := by
    simp only [serverNamePatternMatchString, List.any_eq_true]
    exact ⟨c, hmem, hclass⟩
  have h1 : ¬ (value.length < 3) := Nat.not_lt.mpr hlo
  have h2 : ¬ (30 < value.length) := Nat.not_lt.mpr hhi
  simp [validateServerName, h1, h2, hmatch, hend]

/-- Witness for validate_server_name_accepts: "a.!" contains characters
outside the documented set yet passes, having one alphanumeric character. -/
theorem validate_server_name_accepts_witness :
    validateServerName "a.!" "server_name" = [] :=
  validate_server_name_accepts "a.!" "server_name" (by decide) (by decide) (by decide)
    ⟨'a', by decide, by decide⟩

end Ncloud
